import Mathlib

/-!
Shallow embedding of the pydomoro timer core: the `Timer` class of
`src/utils/timer.py`, the timer-state persistence of
`src/database/db_manager.py`, and the glue in `src/app.py`
(`timer_callback`, `restore_timer_state`, the timer-mode start button).

Modelling conventions:
- Wall-clock instants and durations in seconds are rationals (`ℚ`);
  each operation takes the current instant `now` explicitly, standing for
  `datetime.now(WIB)`.  `duration_minutes` stays in minutes as in the code;
  `timedelta(minutes=m)` is `60 * m` seconds.
- `None`-able Python attributes become `Option`; Python truthiness of
  `duration_minutes` (`None` and `0` are falsy) is modelled by matching on
  `Option` and testing `= 0`.
- ISO-string timestamps are modelled as already-decoded instants: the
  `isinstance(..., str)` / `fromisoformat` branch of `restore_from_state`
  is absorbed into the `Option ℚ` snapshot field.
- The watcher thread (`_check_target`) is modelled by its loop body as a
  single poll step (`check_target_step`); the `threading.Event` is the
  Boolean `stop_event`, and `timer_thread` records that a thread object
  was assigned (a `Thread` is truthy even after it finishes).
- A Python callback value is modelled by the Boolean `callback`
  (whether a callable is attached).
-/

/-- State of `Timer` (src/utils/timer.py, `__init__` fields). -/
structure Timer where
  running : Bool
  paused : Bool
  start_time : Option ℚ
  elapsed_time : ℚ
  target_time : Option ℚ
  timer_thread : Bool
  callback : Bool
  stop_event : Bool
deriving DecidableEq, Repr

/-- `Timer.__init__`: all flags cleared, elapsed 0, no thread, no callback. -/
def Timer.init : Timer :=
  { running := false, paused := false, start_time := none, elapsed_time := 0,
    target_time := none, timer_thread := false, callback := false, stop_event := false }

/-- Row of the `timer_state` table as returned by `DBManager.get_timer_state`
(src/database/db_manager.py, lines 293-313).  `start_time`,
`duration_minutes` and `session_id` are nullable columns. -/
structure TimerSnapshot where
  mode : String
  activity_type : String
  start_time : Option ℚ
  elapsed_time_seconds : ℚ
  duration_minutes : Option ℚ
  paused : Bool
  session_id : Option Nat
  updated_at : ℚ
deriving DecidableEq, Repr

/-- `Timer.start` (timer.py lines 20-37).  A silent early return when already
running (Python returns `None`, no error is signalled).  Otherwise sets
`running`, clears `paused`, sets `start_time = now`; when `duration_minutes`
is truthy (present and nonzero) it sets `target_time`, stores the callback,
clears the stop event and spawns the watcher thread.
Note: `elapsed_time` is never touched. -/
def Timer.start (tm : Timer) (duration_minutes : Option ℚ) (cb : Bool) (now : ℚ) : Timer :=
  if tm.running then tm
  else
    let tm1 := { tm with running := true, paused := false, start_time := some now }
    match duration_minutes with
    | none => tm1
    | some d =>
      if d = 0 then tm1
      else
        { tm1 with target_time := some (now + 60 * d), callback := cb,
                   stop_event := false, timer_thread := true }

/-- `Timer.restore_from_state` (timer.py lines 39-79).  Always sets
`running := true`; copies `paused` and `elapsed_time_seconds`; for a
non-paused snapshot keeps the persisted `start_time` (possibly `none`
when the column is NULL: restore does not validate), else uses `now`.
When `duration_minutes` is truthy, recomputes the target from the folded
elapsed time and, if not paused, clears the stop event and spawns the
watcher thread. -/
def Timer.restore_from_state (tm : Timer) (st : TimerSnapshot) (cb : Bool) (now : ℚ) : Timer :=
  let tm1 := { tm with running := true, paused := st.paused,
                       elapsed_time := st.elapsed_time_seconds }
  let tm2 := if !st.paused then { tm1 with start_time := st.start_time }
             else { tm1 with start_time := some now }
  match st.duration_minutes with
  | none => tm2
  | some d =>
    if d = 0 then tm2
    else
      let remaining_minutes : ℚ :=
        if !st.paused then
          let elapsed_seconds :=
            tm2.elapsed_time +
              (match tm2.start_time with
               | some s => now - s
               | none => 0)
          max 0 (d - elapsed_seconds / 60)
        else
          max 0 (d - tm2.elapsed_time / 60)
      let tm3 := { tm2 with target_time := some (now + 60 * remaining_minutes),
                            callback := cb }
      if !st.paused then { tm3 with stop_event := false, timer_thread := true }
      else tm3

/-- Outcome of one iteration of the watcher loop `Timer._check_target`
(timer.py lines 81-88). -/
inductive PollStep where
  | fired
  | exited
  | slept
deriving DecidableEq, Repr

/-- One poll of `Timer._check_target` at instant `now`: exit when the stop
event is set; when the timer is running, unpaused and `now >= target_time`,
invoke the callback when attached, then break out of the loop; otherwise
sleep 100 ms and poll again.  A `none` target under a live poll would make
the Python comparison raise, killing the thread without firing; modelled
as an exit without firing. -/
def Timer.check_target_step (tm : Timer) (now : ℚ) : PollStep :=
  if tm.stop_event then .exited
  else if tm.running && !tm.paused then
    match tm.target_time with
    | some tgt => if tgt ≤ now then (if tm.callback then .fired else .exited) else .slept
    | none => .exited
  else .slept

/-- `Timer.pause` (timer.py lines 90-94): only acts when running and not
paused; sets `paused` and folds the open segment into `elapsed_time`.
It does NOT touch `stop_event` or the watcher thread.  With a `none`
`start_time` Python sets `paused` and then the addition raises `TypeError`,
leaving `elapsed_time` unchanged; the post-exception state is modelled. -/
def Timer.pause (tm : Timer) (now : ℚ) : Timer :=
  if tm.running && !tm.paused then
    match tm.start_time with
    | some s => { tm with paused := true, elapsed_time := tm.elapsed_time + (now - s) }
    | none => { tm with paused := true }
  else tm

/-- `Timer.resume` (timer.py lines 96-100): only acts when running and
paused; clears `paused` and sets `start_time := now`.  It does NOT
recompute `target_time` and does not restart the watcher. -/
def Timer.resume (tm : Timer) (now : ℚ) : Timer :=
  if tm.running && tm.paused then
    { tm with paused := false, start_time := some now }
  else tm

/-- `Timer.stop` (timer.py lines 102-114): when running, folds the open
segment (if unpaused), clears `running` and `paused`, and if a thread was
ever assigned sets the stop event (then joins with a 1 s timeout); always
returns `elapsed_time`.  With a `none` `start_time` while running-unpaused
Python raises before any flag is cleared; that state-unchanged case is
modelled by returning the timer untouched. -/
def Timer.stop (tm : Timer) (now : ℚ) : Timer × ℚ :=
  if tm.running then
    if tm.paused = false ∧ tm.start_time = none then (tm, tm.elapsed_time)
    else
      let tm1 :=
        if !tm.paused then
          { tm with elapsed_time := tm.elapsed_time + (now - tm.start_time.getD 0) }
        else tm
      let tm2 := { tm1 with running := false, paused := false }
      let tm3 := if tm2.timer_thread then { tm2 with stop_event := true } else tm2
      (tm3, tm3.elapsed_time)
  else (tm, tm.elapsed_time)

/-- `Timer.get_elapsed_time` (timer.py lines 124-132).  Running-unpaused
with a `none` `start_time` raises in Python (`None` arithmetic): `none`. -/
def Timer.get_elapsed_time (tm : Timer) (now : ℚ) : Option ℚ :=
  if !tm.running then some tm.elapsed_time
  else if tm.paused then some tm.elapsed_time
  else tm.start_time.map (fun s => tm.elapsed_time + (now - s))

/-- `Timer.get_remaining_time` (timer.py lines 134-144).  Returns 0 when no
target is set or not running; frozen paused value uses the target and the
(stale) segment start; the running value is `max 0 (target - now)`. -/
def Timer.get_remaining_time (tm : Timer) (now : ℚ) : Option ℚ :=
  match tm.target_time with
  | none => some 0
  | some tgt =>
    if !tm.running then some 0
    else if tm.paused then
      match tm.start_time with
      | some s => some (max 0 ((tgt - s) - tm.elapsed_time))
      | none => none
    else some (max 0 (tgt - now))

/-- Row of the `focus_sessions` table (db_manager.py, `create_tables`). -/
structure Session where
  id : Nat
  activity_type : String
  start_time : ℚ
  end_time : Option ℚ
  duration_minutes : Option ℚ
  completed : Bool
deriving DecidableEq, Repr

/-- `DBManager.start_session` (db_manager.py lines 50-57): inserts a new row
with the current time and returns `lastrowid`; the AUTOINCREMENT id is
modelled by the explicit `next` counter. -/
def start_session (sessions : List Session) (next : Nat) (activity : String) (now : ℚ) :
    Nat × List Session :=
  (next, sessions ++ [{ id := next, activity_type := activity, start_time := now,
                        end_time := none, duration_minutes := none, completed := false }])

/-- `DBManager.end_session` (db_manager.py lines 59-79): looks up the row's
start time, computes the duration in minutes and updates end time, duration
and the completed flag.  A missing id makes `fetchone()[0]` raise in Python:
modelled as `none`. -/
def end_session (sessions : List Session) (sid : Nat) (now : ℚ) (completed : Bool) :
    Option (List Session) :=
  if sessions.any (fun s => s.id == sid) then
    some (sessions.map (fun s =>
      if s.id == sid then
        { s with end_time := some now,
                 duration_minutes := some ((now - s.start_time) / 60),
                 completed := completed }
      else s))
  else none

/-- `DBManager.save_timer_state` (db_manager.py lines 263-291): deletes any
existing `timer_state` row and inserts one built from the timer's fields
and the caller-supplied metadata; the returned snapshot is the single row
the store now holds. -/
def save_timer_state (timer : Timer) (mode activity : String) (duration : Option ℚ)
    (sid : Option Nat) (now : ℚ) : TimerSnapshot :=
  { mode := mode, activity_type := activity, start_time := timer.start_time,
    elapsed_time_seconds := timer.elapsed_time, duration_minutes := duration,
    paused := timer.paused, session_id := sid, updated_at := now }

/-- Streamlit session state plus the database contents visible to the timer
glue in `src/app.py`.  `db_timer_state` is the single `timer_state` row
(`DBManager.get_timer_state` returns it, `clear_timer_state` removes it);
`warned_active` records that the "already have an active timer session"
warning was shown. -/
structure AppState where
  timer : Timer
  mode : String
  activity_type : String
  duration_minutes : Option ℚ
  session_id : Option Nat
  timer_completed : Bool
  timer_restored : Bool
  sessions : List Session
  next_session_id : Nat
  db_timer_state : Option TimerSnapshot
  warned_active : Bool
deriving DecidableEq, Repr

/-- `timer_callback` (app.py lines 85-96): plays the notification (external,
not modelled), marks the timer completed, ends the session in the database
when one is open and clears the stored session id, then clears the
persisted timer state.  `none` models the Python exception raised by
`end_session` when the session id is missing from the table. -/
def timerCallback (app : AppState) (now : ℚ) : Option AppState :=
  let app1 := { app with timer_completed := true }
  match app1.session_id with
  | some sid =>
    match end_session app1.sessions sid now true with
    | some ss => some { app1 with sessions := ss, session_id := none, db_timer_state := none }
    | none => none
  | none => some { app1 with db_timer_state := none }

/-- `restore_timer_state` (app.py lines 51-68): a no-op once restored or when
the store holds no snapshot; otherwise copies the snapshot's metadata into
the session state, restores the timer with `timer_callback` attached, and
marks restoration done. -/
def restore_timer_state (app : AppState) (now : ℚ) : AppState :=
  if app.timer_restored then app
  else
    match app.db_timer_state with
    | none => app
    | some ts =>
      { app with mode := ts.mode, activity_type := ts.activity_type,
                 duration_minutes := ts.duration_minutes,
                 session_id := ts.session_id,
                 timer := app.timer.restore_from_state ts true now,
                 timer_restored := true }

/-- Timer-mode start-button handler (app.py lines 415-438): when the store
already holds a snapshot, show the "already active" warning and call
`st.rerun()` — which raises `RerunException`, aborting the rest of the
handler, so nothing else runs.  Otherwise open a session, start the timer
with `timer_callback` attached, and persist the snapshot. -/
def startButtonTimer (app : AppState) (now : ℚ) : AppState :=
  match app.db_timer_state with
  | some _ => { app with warned_active := true }
  | none =>
    let sidSessions := start_session app.sessions app.next_session_id app.activity_type now
    let tm := app.timer.start app.duration_minutes true now
    let snap := save_timer_state tm app.mode app.activity_type app.duration_minutes
                  (some sidSessions.1) now
    { app with sessions := sidSessions.2, next_session_id := app.next_session_id + 1,
               session_id := some sidSessions.1, timer := tm,
               db_timer_state := some snap }

/-- C10: calling `start()` while the timer is already running (paused or not)
is a silent no-op: Python returns `None` without signalling any error and no
field of the timer is mutated. -/
theorem C10_start_noop_when_running (tm : Timer) (dur : Option ℚ) (cb : Bool) (now : ℚ)
    (h : tm.running = true) :
    tm.start dur cb now = tm := by
  simp [Timer.start, h]

/-- Witness for C10 at a concrete running timer (also one that is paused). -/
theorem C10_witness :
    ((Timer.init.start none false 0).running = true ∧
      (Timer.init.start none false 0).start (some 3) true 5 = Timer.init.start none false 0) ∧
    (((Timer.init.start none false 0).pause 2).running = true ∧
      ((Timer.init.start none false 0).pause 2).start (some 3) true 5
        = (Timer.init.start none false 0).pause 2) :=
  ⟨⟨by decide, C10_start_noop_when_running (Timer.init.start none false 0) (some 3) true 5
      (by decide)⟩,
   ⟨by decide, C10_start_noop_when_running ((Timer.init.start none false 0).pause 2) (some 3)
      true 5 (by decide)⟩⟩

/-- C8: when the StateStore already holds a persisted timer snapshot, the
timer-mode start handler shows the "already active" warning and `st.rerun()`
aborts the handler: no session is created, the timer is not started, and the
snapshot is not overwritten. -/
theorem C8_start_rejected_when_snapshot_exists (app : AppState) (now : ℚ)
    (snap : TimerSnapshot) (h : app.db_timer_state = some snap) :
    (startButtonTimer app now).warned_active = true ∧
    (startButtonTimer app now).sessions = app.sessions ∧
    (startButtonTimer app now).next_session_id = app.next_session_id ∧
    (startButtonTimer app now).session_id = app.session_id ∧
    (startButtonTimer app now).timer = app.timer ∧
    (startButtonTimer app now).db_timer_state = some snap := by
  simp [startButtonTimer, h]

/-- Concrete application state used by witnesses: a restored app holding one
open session and a persisted snapshot. -/
def appWithSnapshot : AppState :=
  { timer := Timer.init, mode := "timer", activity_type := "Work",
    duration_minutes := some 25, session_id := some 1, timer_completed := false,
    timer_restored := true,
    sessions := [{ id := 1, activity_type := "Work", start_time := 0, end_time := none,
                   duration_minutes := none, completed := false }],
    next_session_id := 2,
    db_timer_state := some
      { mode := "timer", activity_type := "Work", start_time := some 0,
        elapsed_time_seconds := 0, duration_minutes := some 25, paused := false,
        session_id := some 1, updated_at := 0 },
    warned_active := false }

/-- Witness for C8 at a concrete state holding a snapshot. -/
theorem C8_witness :
    (startButtonTimer appWithSnapshot 10).warned_active = true ∧
    (startButtonTimer appWithSnapshot 10).sessions = appWithSnapshot.sessions ∧
    (startButtonTimer appWithSnapshot 10).next_session_id = appWithSnapshot.next_session_id ∧
    (startButtonTimer appWithSnapshot 10).session_id = appWithSnapshot.session_id ∧
    (startButtonTimer appWithSnapshot 10).timer = appWithSnapshot.timer ∧
    (startButtonTimer appWithSnapshot 10).db_timer_state = some
      { mode := "timer", activity_type := "Work", start_time := some 0,
        elapsed_time_seconds := 0, duration_minutes := some 25, paused := false,
        session_id := some 1, updated_at := 0 } :=
  C8_start_rejected_when_snapshot_exists appWithSnapshot 10 _ rfl

/-- C6: `stop()` is idempotent: a second `stop()` returns the same elapsed
value and leaves the whole timer state untouched. -/
theorem C6_stop_idempotent (tm : Timer) (n1 n2 : ℚ) :
    ((tm.stop n1).1.stop n2).2 = (tm.stop n1).2 ∧
    ((tm.stop n1).1.stop n2).1 = (tm.stop n1).1 := by
  rcases tm with ⟨run, p, st, e, tgt, th, cbv, se⟩
  cases run <;> cases p <;> cases st <;> cases th <;>
    simp [Timer.stop]

/-- C1: restoring a non-paused countdown snapshot folds the wall-clock gap
into the remaining time: with elapsed `e`, target `d` minutes and persisted
segment start `s`, `restore_from_state` followed by `get_remaining_time` at
instant `now` yields `60*d - e - (now - s)` seconds, clamped at 0. -/
theorem C1_restore_folds_gap (snap : TimerSnapshot) (d e s now : ℚ) (cb : Bool)
    (hp : snap.paused = false) (hst : snap.start_time = some s)
    (he : snap.elapsed_time_seconds = e) (hd : snap.duration_minutes = some d)
    (hd0 : d ≠ 0) :
    (Timer.init.restore_from_state snap cb now).get_remaining_time now
      = some (max 0 (60 * d - e - (now - s))) := by
  simp only [Timer.restore_from_state, Timer.init, hp, hst, he, hd, hd0,
    Bool.not_false, if_true, if_false, ite_true, ite_false, Timer.get_remaining_time]
  rcases le_total (d - (e + (now - s)) / 60) 0 with h | h
  · rw [max_eq_left h]
    have h60 : 60 * d - e - (now - s) ≤ 0 := by linarith
    simp [max_eq_left h60, max_eq_left (le_refl (0 : ℚ))]
  · rw [max_eq_right h]
    have h2 : now + 60 * (d - (e + (now - s)) / 60) - now = 60 * d - e - (now - s) := by ring
    rw [h2]
    simp

/-- Witness for C1 at the spec's example: elapsed 30 s, target 5 min (300 s),
gap 20 s, so remaining is 250 s. -/
theorem C1_witness :
    (Timer.init.restore_from_state
        { mode := "timer", activity_type := "Work", start_time := some 0,
          elapsed_time_seconds := 30, duration_minutes := some 5, paused := false,
          session_id := some 1, updated_at := 0 } true 20).get_remaining_time 20
      = some 250 := by
  have h := C1_restore_folds_gap
    { mode := "timer", activity_type := "Work", start_time := some 0,
      elapsed_time_seconds := 30, duration_minutes := some 5, paused := false,
      session_id := some 1, updated_at := 0 } 5 30 0 20 true rfl rfl rfl rfl (by norm_num)
  rw [h]
  norm_num

/-- C2: restoring a non-paused countdown snapshot whose folded elapsed time
(`e` plus the wall-clock gap since `s`) has reached the target recomputes the
target instant as `now` itself, so the watcher's first poll (any `t ≥ now`)
invokes the completion handler, and `timer_callback` then closes the open
session and clears the persisted snapshot. -/
theorem C2_expired_restore_fires (snap : TimerSnapshot) (d e s now t : ℚ) (sid : Nat)
    (app : AppState)
    (hp : snap.paused = false) (hst : snap.start_time = some s)
    (he : snap.elapsed_time_seconds = e) (hd : snap.duration_minutes = some d)
    (hd0 : d ≠ 0) (hfold : 60 * d ≤ e + (now - s)) (ht : now ≤ t)
    (hsid : app.session_id = some sid)
    (hmem : app.sessions.any (fun x => x.id == sid) = true) :
    ((Timer.init.restore_from_state snap true now).target_time = some now ∧
      (Timer.init.restore_from_state snap true now).check_target_step t = PollStep.fired) ∧
    ∃ app2, timerCallback app t = some app2 ∧
      app2.db_timer_state = none ∧ app2.session_id = none ∧
      app2.sessions.any (fun x => x.id == sid && x.completed) = true := by
  have hmax : max 0 (d - (e + (now - s)) / 60) = 0 := by
    apply max_eq_left
    have hdle : d ≤ (e + (now - s)) / 60 := by
      rw [le_div_iff₀ (by norm_num : (0:ℚ) < 60)]
      linarith
    linarith
  have htm : Timer.init.restore_from_state snap true now =
      { running := true, paused := false, start_time := some s, elapsed_time := e,
        target_time := some now, timer_thread := true, callback := true,
        stop_event := false } := by
    simp [Timer.restore_from_state, Timer.init, hp, hst, he, hd, hd0, hmax]
  constructor
  · rw [htm]
    constructor
    · rfl
    · simp [Timer.check_target_step, ht]
  · have hend : end_session app.sessions sid t true =
        some (app.sessions.map (fun s0 =>
          if s0.id == sid then
            { s0 with end_time := some t,
                      duration_minutes := some ((t - s0.start_time) / 60),
                      completed := true }
          else s0)) := by
      simp [end_session, hmem]
    refine ⟨{ app with
              timer_completed := true
              sessions := app.sessions.map (fun s0 =>
                if s0.id == sid then
                  { s0 with end_time := some t,
                            duration_minutes := some ((t - s0.start_time) / 60),
                            completed := true }
                else s0)
              session_id := none
              db_timer_state := none }, ?_, rfl, rfl, ?_⟩
    · simp [timerCallback, hsid, hend]
    · apply List.any_eq_true.mpr
      obtain ⟨x, hxmem, hxid⟩ := List.any_eq_true.mp hmem
      refine ⟨if x.id == sid then
                { x with end_time := some t,
                         duration_minutes := some ((t - x.start_time) / 60),
                         completed := true }
              else x, List.mem_map_of_mem _ hxmem, ?_⟩
      simp [hxid]

/-- Concrete application state used by the C2 witness: one open session with
id 1 and no persisted row left to clear beyond the snapshot being restored. -/
def appOpenSession : AppState :=
  { timer := Timer.init, mode := "timer", activity_type := "Work",
    duration_minutes := some 5, session_id := some 1, timer_completed := false,
    timer_restored := false,
    sessions := [{ id := 1, activity_type := "Work", start_time := 0, end_time := none,
                   duration_minutes := none, completed := false }],
    next_session_id := 2,
    db_timer_state := some
      { mode := "timer", activity_type := "Work", start_time := some 0,
        elapsed_time_seconds := 290, duration_minutes := some 5, paused := false,
        session_id := some 1, updated_at := 0 },
    warned_active := false }

/-- Witness for C2 at the spec's example: elapsed 290 s, target 5 min (300 s),
gap 20 s, so the folded elapsed 310 s exceeds the target. -/
theorem C2_witness :
    ((Timer.init.restore_from_state
        { mode := "timer", activity_type := "Work", start_time := some 0,
          elapsed_time_seconds := 290, duration_minutes := some 5, paused := false,
          session_id := some 1, updated_at := 0 } true 20).target_time = some 20 ∧
      (Timer.init.restore_from_state
        { mode := "timer", activity_type := "Work", start_time := some 0,
          elapsed_time_seconds := 290, duration_minutes := some 5, paused := false,
          session_id := some 1, updated_at := 0 } true 20).check_target_step 20
        = PollStep.fired) ∧
    ∃ app2, timerCallback appOpenSession 20 = some app2 ∧
      app2.db_timer_state = none ∧ app2.session_id = none ∧
      app2.sessions.any (fun x => x.id == 1 && x.completed) = true :=
  C2_expired_restore_fires
    { mode := "timer", activity_type := "Work", start_time := some 0,
      elapsed_time_seconds := 290, duration_minutes := some 5, paused := false,
      session_id := some 1, updated_at := 0 }
    5 290 0 20 20 1 appOpenSession rfl rfl rfl rfl (by norm_num) (by norm_num)
    (by norm_num) rfl (by decide)


/-- C3 (code bug, evaluated at the failing input): a 5-minute countdown is
started at t = 0 (target instant 300), paused at t = 100 (remaining then
200 s) and resumed at t = 200.  `resume` does not recompute `target_time`
(it is still the instant 300), so immediately after the resume the remaining
time is 100 s — the 100 s paused wait was deducted from the countdown —
contradicting the contract that the remaining time after resume equals the
remaining time just before the pause. -/
theorem C3_resume_does_not_recompute_target :
    ((Timer.init.start (some 5) true 0).get_remaining_time 100 = some 200) ∧
    ((((Timer.init.start (some 5) true 0).pause 100).resume 200).target_time
        = (Timer.init.start (some 5) true 0).target_time) ∧
    ((((Timer.init.start (some 5) true 0).pause 100).resume 200).target_time = some 300) ∧
    ((((Timer.init.start (some 5) true 0).pause 100).resume 200).get_remaining_time 200
        = some 100) := by
  have h1 : Timer.init.start (some 5) true 0 =
      { running := true, paused := false, start_time := some 0, elapsed_time := 0,
        target_time := some 300, timer_thread := true, callback := true,
        stop_event := false } := by
    norm_num [Timer.init, Timer.start]
  have h2 : (Timer.init.start (some 5) true 0).pause 100 =
      { running := true, paused := true, start_time := some 0, elapsed_time := 100,
        target_time := some 300, timer_thread := true, callback := true,
        stop_event := false } := by
    rw [h1]; norm_num [Timer.pause]
  have h3 : ((Timer.init.start (some 5) true 0).pause 100).resume 200 =
      { running := true, paused := false, start_time := some 200, elapsed_time := 100,
        target_time := some 300, timer_thread := true, callback := true,
        stop_event := false } := by
    rw [h2]; norm_num [Timer.resume]
  refine ⟨?_, ?_, ?_, ?_⟩
  · rw [h1]; norm_num [Timer.get_remaining_time]
  · rw [h3, h1]
  · rw [h3]
  · rw [h3]; norm_num [Timer.get_remaining_time]

/-- Counterexample to C4 as stated: a fresh timer is started at t = 0 and
stopped at t = 10, ending with elapsed 10 ≠ 0; started again at t = 20,
`get_elapsed_time` immediately after the second start is 10, not 0 —
`start()` never resets `elapsed_time`. -/
theorem C4_counterexample :
    (((Timer.init.start none false 0).stop 10).2 = 10) ∧
    ((((Timer.init.start none false 0).stop 10).1.start none false 20).get_elapsed_time 20
        = some 10) ∧
    ¬ ((((Timer.init.start none false 0).stop 10).1.start none false 20).get_elapsed_time 20
        = some 0) := by
  have h1 : Timer.init.start none false 0 =
      { running := true, paused := false, start_time := some 0, elapsed_time := 0,
        target_time := none, timer_thread := false, callback := false,
        stop_event := false } := by
    norm_num [Timer.init, Timer.start]
  have h2 : (Timer.init.start none false 0).stop 10 =
      ({ running := false, paused := false, start_time := some 0, elapsed_time := 10,
         target_time := none, timer_thread := false, callback := false,
         stop_event := false }, 10) := by
    rw [h1]; simp [Timer.stop]
  have h3 : ((Timer.init.start none false 0).stop 10).1.start none false 20 =
      { running := true, paused := false, start_time := some 20, elapsed_time := 10,
        target_time := none, timer_thread := false, callback := false,
        stop_event := false } := by
    rw [h2]; norm_num [Timer.start]
  refine ⟨?_, ?_, ?_⟩
  · rw [h2]
  · rw [h3]; norm_num [Timer.get_elapsed_time]
  · rw [h3]; norm_num [Timer.get_elapsed_time]

/-- Fields of `start()` on a non-running timer (helper): it sets `running`,
clears `paused`, sets the segment start, and preserves `elapsed_time`. -/
theorem Timer.start_not_running (tm : Timer) (dur : Option ℚ) (cb : Bool) (now : ℚ)
    (h : tm.running = false) :
    (tm.start dur cb now).running = true ∧ (tm.start dur cb now).paused = false ∧
    (tm.start dur cb now).start_time = some now ∧
    (tm.start dur cb now).elapsed_time = tm.elapsed_time := by
  cases dur with
  | none => simp [Timer.start, h]
  | some d => by_cases hd : d = 0 <;> simp [Timer.start, h, hd]

/-- Fields of `stop()` on a running, unpaused timer with a live segment
start (helper): it folds the open segment and clears `running`. -/
theorem Timer.stop_running_unpaused (tm : Timer) (now s : ℚ)
    (hr : tm.running = true) (hp : tm.paused = false) (hst : tm.start_time = some s) :
    (tm.stop now).1.running = false ∧
    (tm.stop now).1.elapsed_time = tm.elapsed_time + (now - s) ∧
    (tm.stop now).2 = tm.elapsed_time + (now - s) := by
  by_cases hth : tm.timer_thread = true <;> simp [Timer.stop, hr, hp, hst, hth]

/-- C4 as amended: `start()` succeeds only when the timer is not running and
then sets `running`, clears `paused` and sets the segment start to `now`,
but leaves the accumulated `elapsed_time` unchanged rather than resetting it
to 0; consequently after start, stop (returning `v`), and a second start,
`get_elapsed_time` immediately after the second start equals `v`, the
elapsed value at the stop, not 0.  (A fresh timer's elapsed is 0 only
because the constructor sets it.) -/
theorem C4_amended_start_preserves_elapsed (tm : Timer) (dur dur2 : Option ℚ)
    (cb cb2 : Bool) (n1 n2 n3 : ℚ) (h : tm.running = false) :
    ((tm.start dur cb n1).running = true ∧ (tm.start dur cb n1).paused = false ∧
      (tm.start dur cb n1).start_time = some n1 ∧
      (tm.start dur cb n1).elapsed_time = tm.elapsed_time) ∧
    ((((tm.start dur cb n1).stop n2).1.start dur2 cb2 n3).get_elapsed_time n3
        = some (((tm.start dur cb n1).stop n2).2)) := by
  obtain ⟨hr, hp, hst, hel⟩ := Timer.start_not_running tm dur cb n1 h
  refine ⟨⟨hr, hp, hst, hel⟩, ?_⟩
  obtain ⟨hsr, hsel, hsv⟩ := Timer.stop_running_unpaused (tm.start dur cb n1) n2 n1 hr hp hst
  obtain ⟨h2r, h2p, h2st, h2el⟩ :=
    Timer.start_not_running ((tm.start dur cb n1).stop n2).1 dur2 cb2 n3 hsr
  simp [Timer.get_elapsed_time, h2r, h2p, h2st, h2el, hsel, hsv]

/-- Witness for C4's amended theorem at a concrete chain. -/
theorem C4_amended_witness :
    (((Timer.init.start (some 5) true 0).running = true ∧
      (Timer.init.start (some 5) true 0).paused = false ∧
      (Timer.init.start (some 5) true 0).start_time = some 0 ∧
      (Timer.init.start (some 5) true 0).elapsed_time = Timer.init.elapsed_time) ∧
    ((((Timer.init.start (some 5) true 0).stop 10).1.start none false 20).get_elapsed_time 20
        = some (((Timer.init.start (some 5) true 0).stop 10).2))) :=
  C4_amended_start_preserves_elapsed Timer.init (some 5) none true false 0 10 20 rfl

/-- Counterexample to C7 as stated: a running 5-minute countdown with a live
watcher is paused at t = 10; `pause()` does not set the stop event, and the
watcher's next poll (t = 11) neither exits nor fires — it keeps sleeping.
Only `stop()` signals cancellation. -/
theorem C7_counterexample :
    (((Timer.init.start (some 5) true 0).pause 10).stop_event = false) ∧
    (((Timer.init.start (some 5) true 0).pause 10).check_target_step 11
        = PollStep.slept) ∧
    ¬ (((Timer.init.start (some 5) true 0).pause 10).check_target_step 11
        = PollStep.exited) := by
  have h1 : Timer.init.start (some 5) true 0 =
      { running := true, paused := false, start_time := some 0, elapsed_time := 0,
        target_time := some 300, timer_thread := true, callback := true,
        stop_event := false } := by
    norm_num [Timer.init, Timer.start]
  have h2 : (Timer.init.start (some 5) true 0).pause 10 =
      { running := true, paused := true, start_time := some 0, elapsed_time := 10,
        target_time := some 300, timer_thread := true, callback := true,
        stop_event := false } := by
    rw [h1]; norm_num [Timer.pause]
  rw [h2]
  refine ⟨rfl, ?_, ?_⟩ <;> decide

/-- C7 as amended: for a running, unpaused countdown timer with a live
watcher, `stop()` sets the stop event and the watcher's next poll observes
it and exits without invoking the completion handler; `pause()`, by
contrast, does not signal cancellation: the stop event stays clear and the
watcher's polls merely keep sleeping while paused — the watcher neither
exits nor invokes the handler. -/
theorem C7_amended_only_stop_cancels (tm : Timer) (now t s : ℚ)
    (hr : tm.running = true) (hp : tm.paused = false) (hth : tm.timer_thread = true)
    (hst : tm.start_time = some s) (hse : tm.stop_event = false) :
    ((tm.stop now).1.stop_event = true ∧
      (tm.stop now).1.check_target_step t = PollStep.exited) ∧
    ((tm.pause now).stop_event = false ∧
      (tm.pause now).check_target_step t = PollStep.slept) := by
  have hstop : (tm.stop now).1.stop_event = true := by
    simp [Timer.stop, hr, hp, hst, hth]
  have hpause : tm.pause now =
      { tm with paused := true, elapsed_time := tm.elapsed_time + (now - s) } := by
    simp [Timer.pause, hr, hp, hst]
  refine ⟨⟨hstop, ?_⟩, ?_⟩
  · simp [Timer.check_target_step, hstop]
  · rw [hpause]
    exact ⟨hse, by simp [Timer.check_target_step, hse]⟩

/-- Witness for C7's amended theorem at a concrete running countdown. -/
theorem C7_amended_witness :
    (((Timer.init.start (some 5) true 0).stop 10).1.stop_event = true ∧
      ((Timer.init.start (some 5) true 0).stop 10).1.check_target_step 11
        = PollStep.exited) ∧
    (((Timer.init.start (some 5) true 0).pause 10).stop_event = false ∧
      ((Timer.init.start (some 5) true 0).pause 10).check_target_step 11
        = PollStep.slept) :=
  C7_amended_only_stop_cancels (Timer.init.start (some 5) true 0) 10 11 0
    (by norm_num [Timer.init, Timer.start]) (by norm_num [Timer.init, Timer.start])
    (by norm_num [Timer.init, Timer.start]) (by norm_num [Timer.init, Timer.start])
    (by norm_num [Timer.init, Timer.start])

/-- A malformed persisted snapshot: `paused = false` yet `start_time` is
NULL, violating the snapshot contract that a live segment start is present
exactly while running-unpaused. -/
def malformedSnapshot : TimerSnapshot :=
  { mode := "timer", activity_type := "Work", start_time := none,
    elapsed_time_seconds := 30, duration_minutes := some 5, paused := false,
    session_id := some 1, updated_at := 0 }

/-- Application state on process start holding the malformed snapshot. -/
def appMalformed : AppState :=
  { timer := Timer.init, mode := "timer", activity_type := "Work",
    duration_minutes := some 25, session_id := none, timer_completed := false,
    timer_restored := false, sessions := [], next_session_id := 1,
    db_timer_state := some malformedSnapshot, warned_active := false }

/-- Application state on process start with no persisted snapshot. -/
def appNoSnapshot : AppState :=
  { timer := Timer.init, mode := "timer", activity_type := "Work",
    duration_minutes := some 25, session_id := none, timer_completed := false,
    timer_restored := false, sessions := [], next_session_id := 1,
    db_timer_state := none, warned_active := false }

/-- Counterexample to C9 as stated: restoring the malformed snapshot (NULL
`start_time` with `paused = false`) does NOT leave the engine Idle — the
restore path performs no validation and marks the timer running, and the
resulting engine is broken: its elapsed-time query hits `None` arithmetic
(a `TypeError` in Python).  The app-level reconciler likewise restores it
into a running timer instead of treating it as "no active timer". -/
theorem C9_counterexample :
    ((Timer.init.restore_from_state malformedSnapshot true 100).running = true) ∧
    ((Timer.init.restore_from_state malformedSnapshot true 100).get_elapsed_time 100
        = none) ∧
    ((restore_timer_state appMalformed 100).timer.running = true) := by
  have h1 : (Timer.init.restore_from_state malformedSnapshot true 100).running = true ∧
      (Timer.init.restore_from_state malformedSnapshot true 100).paused = false ∧
      (Timer.init.restore_from_state malformedSnapshot true 100).start_time = none := by
    norm_num [Timer.restore_from_state, malformedSnapshot, Timer.init]
  obtain ⟨hrun, hpz, hstt⟩ := h1
  refine ⟨hrun, ?_, ?_⟩
  · simp [Timer.get_elapsed_time, hrun, hpz, hstt]
  · simpa [restore_timer_state, appMalformed] using hrun

/-- C9 as amended: the restore path performs no validation at all —
`restore_from_state` unconditionally marks the engine running for every
snapshot, malformed or not, so a damaged snapshot is never degraded to
"no active timer"; the engine is left Idle only when the store holds no
snapshot row, in which case the reconciler leaves the state untouched. -/
theorem C9_amended_restore_never_idle (st : TimerSnapshot) (cb : Bool) (now : ℚ)
    (tm : Timer) (app : AppState)
    (h1 : app.timer_restored = false) (h2 : app.db_timer_state = none) :
    (tm.restore_from_state st cb now).running = true ∧
    restore_timer_state app now = app := by
  constructor
  · rcases st with ⟨m, a, stt, e, dm, p, sid, ua⟩
    cases p <;> cases dm <;>
      simp [Timer.restore_from_state] <;> split_ifs <;> simp
  · simp [restore_timer_state, h1, h2]

/-- Witness for C9's amended theorem at the malformed snapshot and an app
state with an empty store. -/
theorem C9_amended_witness :
    (Timer.init.restore_from_state malformedSnapshot true 100).running = true ∧
    restore_timer_state appNoSnapshot 100 = appNoSnapshot :=
  C9_amended_restore_never_idle malformedSnapshot true 100 Timer.init appNoSnapshot rfl rfl

/-- Counterexample to C5 as stated: the claim's sequence does not yield
`t1 + t2` for every timer.  A reachable stale timer — started at t = 0 and
stopped at t = 10, leaving `elapsed_time = 10` — is run through the exact
sequence with t1 = 5, w = 5, t2 = 5 (start at 20, pause at 25, resume at 30,
stop at 35): the final elapsed is 20, not t1 + t2 = 10, because `start()`
does not reset the accumulated `elapsed_time`. -/
theorem C5_counterexample :
    ((((((Timer.init.start none false 0).stop 10).1.start none false 20).pause 25).resume
        30).stop 35).2 = 20 ∧
    ¬ (((((((Timer.init.start none false 0).stop 10).1.start none false 20).pause 25).resume
        30).stop 35).2 = 10) := by
  have h1 : Timer.init.start none false 0 =
      { running := true, paused := false, start_time := some 0, elapsed_time := 0,
        target_time := none, timer_thread := false, callback := false,
        stop_event := false } := by
    norm_num [Timer.init, Timer.start]
  have h2 : (Timer.init.start none false 0).stop 10 =
      ({ running := false, paused := false, start_time := some 0, elapsed_time := 10,
         target_time := none, timer_thread := false, callback := false,
         stop_event := false }, 10) := by
    rw [h1]; simp [Timer.stop]
  have h3 : ((Timer.init.start none false 0).stop 10).1.start none false 20 =
      { running := true, paused := false, start_time := some 20, elapsed_time := 10,
        target_time := none, timer_thread := false, callback := false,
        stop_event := false } := by
    rw [h2]; norm_num [Timer.start]
  have h4 : (((Timer.init.start none false 0).stop 10).1.start none false 20).pause 25 =
      { running := true, paused := true, start_time := some 20, elapsed_time := 15,
        target_time := none, timer_thread := false, callback := false,
        stop_event := false } := by
    rw [h3]; norm_num [Timer.pause]
  have h5 : ((((Timer.init.start none false 0).stop 10).1.start none false 20).pause
      25).resume 30 =
      { running := true, paused := false, start_time := some 30, elapsed_time := 15,
        target_time := none, timer_thread := false, callback := false,
        stop_event := false } := by
    rw [h4]; norm_num [Timer.resume]
  have h6 : (((((Timer.init.start none false 0).stop 10).1.start none false 20).pause
      25).resume 30).stop 35 =
      ({ running := false, paused := false, start_time := some 30, elapsed_time := 20,
         target_time := none, timer_thread := false, callback := false,
         stop_event := false }, 20) := by
    rw [h5]; simp [Timer.stop]; norm_num
  rw [h6]
  norm_num

/-- C5 as amended: for every timer that is not running when the sequence
begins, `start()`, run t1, `pause()`, wait an arbitrary `w`, `resume()`,
run t2, `stop()` returns the timer's prior accumulated `elapsed_time` plus
`t1 + t2`, independent of the paused wait `w` and of the mode; this equals
`t1 + t2` exactly when the prior accumulated elapsed is 0 — e.g. a freshly
constructed `Timer`, as the app guarantees by replacing the object on stop —
since `start()` does not reset `elapsed_time`. -/
theorem C5_amended_sequence_elapsed (tm : Timer) (t0 t1 w t2 : ℚ) (dur : Option ℚ)
    (cb : Bool) (h : tm.running = false) :
    ((((tm.start dur cb t0).pause (t0 + t1)).resume (t0 + t1 + w)).stop
        (t0 + t1 + w + t2)).2 = tm.elapsed_time + (t1 + t2) := by
  rcases tm with ⟨run, p, st, e, tgt, th, cbv, se⟩
  have h9 : run = false := h
  subst h9
  cases dur with
  | none =>
    cases th <;>
      simp [Timer.start, Timer.pause, Timer.resume, Timer.stop] <;>
      try ring
  | some d =>
    by_cases hd : d = 0 <;> cases th <;>
      simp [Timer.start, Timer.pause, Timer.resume, Timer.stop, hd] <;>
      try ring

/-- Witness for C5's amended theorem: the stale timer with accumulated
elapsed 10 run through the sequence with t1 = t2 = w = 5 returns 10 + 10. -/
theorem C5_amended_witness :
    ((((((Timer.init.start none false 0).stop 10).1.start none false 20).pause
        (20 + 5)).resume (20 + 5 + 5)).stop (20 + 5 + 5 + 5)).2
      = ((Timer.init.start none false 0).stop 10).1.elapsed_time + (5 + 5) :=
  C5_amended_sequence_elapsed ((Timer.init.start none false 0).stop 10).1 20 5 5 5 none
    false (by simp [Timer.init, Timer.start, Timer.stop])
